import Mathlib

/-!
Verification of the tes-azure API server against its natural-language
specification.  The definitions below are shallow embeddings of the Python
source under `src/api-server/tesazure/`; each definition's doc comment names
the function it embeds.  Theorems about the embedded definitions follow the
definitions.
-/

set_option autoImplicit false

namespace TesAzure

/-! ## Basic string / posix-path helpers shared by the embedded functions -/

/-- Single-quote character, used when embedding `shlex.quote`. -/
def squoteChar : Char := '\x27'

/-- Fuel-driven replacement of a non-empty pattern, embedding Python
`str.replace` (left-to-right, non-overlapping); structural recursion on the
fuel keeps it kernel-reducible. -/
def replaceFuel (p r : List Char) : Nat → List Char → List Char
  | 0, l => l
  | _ + 1, [] => []
  | n + 1, c :: rest =>
      if p.isPrefixOf (c :: rest) then r ++ replaceFuel p r n ((c :: rest).drop p.length)
      else c :: replaceFuel p r n rest

/-- Embeds Python `str.replace` for non-empty patterns. -/
def pyReplace (s pat repl : String) : String :=
  String.mk (replaceFuel pat.data repl.data s.data.length s.data)

/-- Fuel-driven split on a non-empty separator, embedding Python
`str.split(sep)`. -/
def splitOnFuel (sep : List Char) : Nat → List Char → List Char → List (List Char)
  | 0, acc, l => [acc.reverse ++ l]
  | _ + 1, acc, [] => [acc.reverse]
  | n + 1, acc, c :: rest =>
      if sep.isPrefixOf (c :: rest) then
        acc.reverse :: splitOnFuel sep n [] ((c :: rest).drop sep.length)
      else splitOnFuel sep n (c :: acc) rest

/-- Embeds Python `str.split(sep)` for non-empty separators. -/
def strSplitOn (s sep : String) : List String :=
  (splitOnFuel sep.data s.data.length [] s.data).map String.mk

/-- Embeds Python `str.startswith`. -/
def strStartsWith (s p : String) : Bool := p.data.isPrefixOf s.data

/-- Embeds Python `str.endswith`. -/
def strEndsWith (s p : String) : Bool := p.data.isSuffixOf s.data

/-- Embeds `sep.join(l)` / `str.join`. -/
def strIntercalate (sep : String) (l : List String) : String :=
  String.mk (List.intercalate sep.data (l.map String.data))

/-- ASCII hex digit test, used for UUID shape checks. -/
def isHexDigit (c : Char) : Bool :=
  ('0' ≤ c && c ≤ '9') || ('a' ≤ c && c ≤ 'f') || ('A' ≤ c && c ≤ 'F')

/-- Characters `shlex.quote` considers safe (complement of Python's
`_find_unsafe` regex: ASCII letters, digits, and `_@%+=:,.` plus slash
and dash). -/
def shlexSafeChar (c : Char) : Bool :=
  c.isAlphanum || c = '_' || c = '@' || c = '%' || c = '+' || c = '='
    || c = ':' || c = ',' || c = '.' || c = '/' || c = '-'

/-- Embeds Python `shlex.quote`: the empty string becomes two single quotes,
strings of safe characters are returned unchanged, anything else is wrapped in
single quotes with embedded single quotes escaped. -/
def shlexQuote (s : String) : String :=
  let sq : String := String.mk [squoteChar]
  if s = "" then sq ++ sq
  else if s.data.all shlexSafeChar then s
  else sq ++ pyReplace s sq (sq ++ "\"" ++ sq ++ "\"" ++ sq) ++ sq

/-- Embeds Python `posixpath.dirname`: everything up to the final slash, with
trailing slashes stripped unless the head is all slashes. -/
def posixDirname (p : String) : String :=
  let cs := p.data
  let tailLen := (cs.reverse.takeWhile (fun c => c ≠ '/')).length
  let head := cs.take (cs.length - tailLen)
  if head ≠ [] ∧ head.any (fun c => c ≠ '/') then
    String.mk ((head.reverse.dropWhile (fun c => c = '/')).reverse)
  else String.mk head

/-- Root part of a POSIX path as `pathlib.PurePosixPath` computes it:
`//` exactly doubled is kept, otherwise a single `/`, otherwise none. -/
def posixRoot (p : String) : String :=
  if strStartsWith p "//" = true ∧ ¬ strStartsWith p "///" = true then "//"
  else if strStartsWith p "/" = true then "/" else ""

/-- Non-root components of a POSIX path (`PurePosixPath` drops empty
components and single dots). -/
def posixComps (p : String) : List String :=
  (strSplitOn p "/").filter (fun s => s ≠ "" ∧ s ≠ ".")

/-- The `parts` tuple of `PurePosixPath`: root (when present) followed by the
components. -/
def posixParts (p : String) : List String :=
  (if posixRoot p = "" then [] else [posixRoot p]) ++ posixComps p

/-- Rebuild the string form of a `PurePosixPath` from its parts. -/
def posixOfParts : List String → String
  | [] => "."
  | r :: rest =>
      if r = "/" ∨ r = "//" then r ++ strIntercalate "/" rest
      else strIntercalate "/" (r :: rest)

/-- Embeds `PurePosixPath(p).parent`. -/
def posixParent (p : String) : String :=
  let comps := posixComps p
  let root := posixRoot p
  match comps with
  | [] => if root = "" then "." else root
  | _ =>
      let comps2 := comps.dropLast
      if comps2 = [] then (if root = "" then "." else root)
      else root ++ strIntercalate "/" comps2

/-- Embeds `PurePosixPath(p).name`: the final non-root component. -/
def posixName (p : String) : String :=
  ((posixComps p).getLast?).getD ""

/-- Embeds `str(PurePosixPath(a) / b)` for the joins performed by the code
(right operand is replaced wholesale when absolute). -/
def posixJoin (a b : String) : String :=
  if strStartsWith b "/" = true then posixOfParts (posixParts b)
  else posixOfParts (posixParts a ++ posixComps b)

/-! ## Data model (from `tesazure/models.py`) -/

/-- TES task state enum (`models.TaskStatus`). -/
inductive TaskStatus where
  | UNKNOWN | QUEUED | INITIALIZING | RUNNING | PAUSED
  | COMPLETE | EXECUTOR_ERROR | SYSTEM_ERROR | CANCELED
  deriving DecidableEq, Repr

/-- `models.TesResources`: integers per the marshmallow schema
(`cpu_cores`, `ram_gb`, `disk_gb` are `fields.Int()`). -/
structure TesResources where
  cpu_cores : Int
  preemptible : Bool
  ram_gb : Int
  disk_gb : Int
  zones : String
  deriving DecidableEq, Repr

/-- `models.TesInput` (fields used by the backends). -/
structure TesInputM where
  name : String
  path : String
  url : String
  content : Option String
  deriving DecidableEq, Repr

/-- `models.TesOutput` (fields used by the backends). -/
structure TesOutputM where
  name : String
  path : String
  url : String
  deriving DecidableEq, Repr

/-- `models.TesExecutor`. -/
structure TesExecutorM where
  image : String
  command : List String
  workdir : String
  stdin : String
  stdout : String
  stderr : String
  env : List (String × String)
  deriving DecidableEq, Repr

/-- In-memory TES task as used by the backend helpers. -/
structure TesTaskM where
  description : String
  inputs : List TesInputM
  outputs : List TesOutputM
  tags : List (String × String)
  resources : TesResources
  executors : List TesExecutorM
  deriving DecidableEq, Repr

/-! ## VM selection (`backends/common/__init__.py`, `determine_azure_vm_for_task`) -/

/-- The GB→GiB conversion constant (`1000**3 / 1024**3`); exact in Python
floats for table-sized operands, so embedded as the exact rational. -/
def GbToGib : ℚ := 1000 ^ 3 / 1024 ^ 3

/-- One row of the `vms_by_preference` table. -/
structure VmSpec where
  sku : String
  cpu : ℚ
  mem : ℚ
  disk : ℚ
  ssd : Bool
  deriving DecidableEq, Repr

/-- The `vms_by_preference` table, in source order. -/
def vms_by_preference : List VmSpec :=
  [ ⟨"Standard_A1_v2", 1, 2, 10, true⟩,
    ⟨"Standard_A2m_v2", 2, 16, 20, true⟩,
    ⟨"Standard_A2_v2", 2, 4, 20, true⟩,
    ⟨"Standard_A4m_v2", 4, 32, 40, true⟩,
    ⟨"Standard_A4_v2", 4, 8, 40, true⟩,
    ⟨"Standard_A8m_v2", 8, 64, 80, true⟩,
    ⟨"Standard_A8_v2", 8, 16, 80, true⟩,
    ⟨"Standard_D2_v3", 2, 8, 50, true⟩,
    ⟨"Standard_D4_v3", 4, 16, 100, true⟩,
    ⟨"Standard_D8_v3", 8, 32, 200, true⟩,
    ⟨"Standard_D16_v3", 16, 64, 400, true⟩,
    ⟨"Standard_D32_v3", 32, 128, 800, true⟩,
    ⟨"Standard_D64_v3", 64, 256, 1600, true⟩,
    ⟨"Standard_G1", 2, 28, 384, true⟩,
    ⟨"Standard_G2", 4, 56, 768, true⟩,
    ⟨"Standard_G3", 8, 112, 1536, true⟩,
    ⟨"Standard_G4", 16, 224, 3072, true⟩,
    ⟨"Standard_G5", 32, 448, 6144, true⟩ ]

/-- `cpu_cores or fallback_cpu_cores` (Python `or` falls back exactly on a
zero value). -/
def effectiveCpu (r : TesResources) (fallback : ℚ) : ℚ :=
  if (r.cpu_cores : ℚ) = 0 then fallback else (r.cpu_cores : ℚ)

/-- `tes_resources.ram_gb * GbToGib or fallback_mem_GiB`. -/
def effectiveMem (r : TesResources) (fallback : ℚ) : ℚ :=
  if (r.ram_gb : ℚ) * GbToGib = 0 then fallback else (r.ram_gb : ℚ) * GbToGib

/-- `tes_resources.disk_gb * GbToGib or fallback_disk_GiB`. -/
def effectiveDisk (r : TesResources) (fallback : ℚ) : ℚ :=
  if (r.disk_gb : ℚ) * GbToGib = 0 then fallback else (r.disk_gb : ℚ) * GbToGib

/-- Boolean form of the table filter predicate
`vm['cpu'] >= cpu_cores and vm['mem'] >= mem_GiB and vm['disk'] >= disk_GiB`. -/
def vmFitsB (r : TesResources) (vm : VmSpec) : Bool :=
  decide (effectiveCpu r 1 ≤ vm.cpu) && decide (effectiveMem r 2 ≤ vm.mem)
    && decide (effectiveDisk r 10 ≤ vm.disk)

/-- Propositional form of the table filter predicate. -/
def vmFits (r : TesResources) (vm : VmSpec) : Prop :=
  effectiveCpu r 1 ≤ vm.cpu ∧ effectiveMem r 2 ≤ vm.mem ∧ effectiveDisk r 10 ≤ vm.disk

instance (r : TesResources) (vm : VmSpec) : Decidable (vmFits r vm) := by
  unfold vmFits; infer_instance

/-- Embeds `determine_azure_vm_for_task` (with the default fallback
arguments 1 core / 2 GiB / 10 GiB): filter the preference table, return the
first remaining SKU, else raise `ValueError("No such VM available")`. -/
def determine_azure_vm_for_task (r : TesResources) : Except String String :=
  match (vms_by_preference.filter (vmFitsB r)).head? with
  | some vm => Except.ok vm.sku
  | none => Except.error "No such VM available"

/-! ## Transfer-command generation (`backends/common/commands.py`) -/

/-- Embeds `generate_input_download_command`. -/
def generate_input_download_command (url path : String) : String :=
  "python /home/ft/cloud-transfer.py -v -d " ++ shlexQuote url ++ " " ++ shlexQuote path

/-- Embeds `generate_input_download_commands`: one download per input whose
`content` is `None` (the TES spec says `url` is ignored when `content` is
populated). -/
def generate_input_download_commands (task : TesTaskM) : List String :=
  (task.inputs.filter (fun i => decide (i.content = none))).map
    (fun i => generate_input_download_command i.url i.path)

/-- Embeds `generate_output_upload_command`. -/
def generate_output_upload_command (path url : String) : String :=
  "python /home/ft/cloud-transfer.py -v -u " ++ shlexQuote path ++ " " ++ shlexQuote url

/-- Embeds `generate_output_upload_commands`: one upload per output,
unconditionally. -/
def generate_output_upload_commands (task : TesTaskM) : List String :=
  task.outputs.map (fun o => generate_output_upload_command o.path o.url)

/-- Embeds `generate_copy_commands`: an optional `mkdir -p` of the
destination's parent followed by a `cp -f` (source deliberately unquoted,
per the FIXME in the source). -/
def generate_copy_commands (source dest : String) : List String :=
  (if posixDirname dest = "" then []
   else ["mkdir -p " ++ shlexQuote (posixDirname dest)])
    ++ ["cp -f " ++ source ++ " " ++ shlexQuote dest]

/-- Embeds the per-executor command construction in
`AzureBatchEngine.createJob` (batch backend, lines 253-259): the joined
executor command, then — when `stdout` redirection is requested — copy
commands for the captured `stdout.txt` whose destination is
`executor.stderr`, then — when `stderr` redirection is requested — copy
commands for the captured `stderr.txt`, also to `executor.stderr`. -/
def executorCommands (e : TesExecutorM) : List String :=
  [String.intercalate " " e.command]
    ++ (if e.stdout = "" then []
        else generate_copy_commands "/tes-wd/$AZ_BATCH_TASK_ID/stdout.txt" e.stderr)
    ++ (if e.stderr = "" then []
        else generate_copy_commands "/tes-wd/$AZ_BATCH_TASK_ID/stderr.txt" e.stderr)

/-! ## Input validation (`models.py`, `TesInputSchema.validate_input`) -/

/-- The `ValidationError` message raised by `validate_input` (single quotes
assembled around the field names). -/
def validationMsg : String :=
  let sq : String := String.mk [squoteChar]
  "One of the " ++ sq ++ "url" ++ sq ++ " or " ++ sq ++ "content" ++ sq
    ++ " parameters must be present"

/-- Embeds `TesInputSchema.validate_input` over the presence of the `url` and
`content` keys in the deserialized data: raises exactly when neither key is
present. -/
def TesInputSchema_validate_input (hasUrl hasContent : Bool) : Except String Unit :=
  if hasUrl = false ∧ hasContent = false then Except.error validationMsg
  else Except.ok ()

/-! ## Theorems for claims C2, C3, C9, C10 -/

lemma head_filter_eq_find {α : Type _} (p : α → Bool) (l : List α) :
    (l.filter p).head? = l.find? p := by
  induction l with
  | nil => rfl
  | cons a t ih =>
      by_cases h : p a <;> simp [List.filter_cons, List.find?_cons, h, ih]

/-- Claim C2 (counterexample): the largest (last) table entry is
`Standard_G5` with cpu capacity 32; a requirement of 64 cpu cores exceeds it,
yet the selector returns `Standard_D64_v3` instead of raising
`NoCapacityAvailable` — the table is not totally ordered by capability. -/
theorem determine_vm_exceeding_largest_entry_returns_ok :
    vms_by_preference.getLast?.map VmSpec.cpu = some 32
    ∧ ¬ ((64 : ℚ) ≤ 32)
    ∧ determine_azure_vm_for_task ⟨64, false, 0, 0, ""⟩ = Except.ok "Standard_D64_v3" := by
  refine ⟨rfl, by norm_num, ?_⟩
  norm_num [determine_azure_vm_for_task, vms_by_preference, List.filter_cons, List.filter_nil,
    vmFitsB, effectiveCpu, effectiveMem, effectiveDisk, GbToGib, decide_eq_true_eq,
    Bool.and_eq_true]

/-- Claim C2 (amended): whenever some table entry meets the (defaulted)
requirement in all three dimensions, the selector returns the first such
entry in table order; when no single entry meets all three, it raises the
no-capacity error. (The original claim's bound in terms of "the largest
table entry" fails because no entry dominates all others.) -/
theorem determine_vm_first_fit (r : TesResources) :
    ((∃ vm ∈ vms_by_preference, vmFits r vm) →
      ∃ vm, vms_by_preference.find? (vmFitsB r) = some vm ∧
        determine_azure_vm_for_task r = Except.ok vm.sku)
    ∧ ((∀ vm ∈ vms_by_preference, ¬ vmFits r vm) →
      determine_azure_vm_for_task r = Except.error "No such VM available") := by
  have hb : ∀ vm, vmFitsB r vm = true ↔ vmFits r vm := by
    intro vm
    simp [vmFitsB, vmFits, Bool.and_eq_true, decide_eq_true_iff, and_assoc]
  have key : (vms_by_preference.filter (vmFitsB r)).head?
      = vms_by_preference.find? (vmFitsB r) := head_filter_eq_find _ _
  constructor
  · rintro ⟨vm, hmem, hfit⟩
    unfold determine_azure_vm_for_task
    rw [key]
    cases hf : vms_by_preference.find? (vmFitsB r) with
    | none =>
        exact absurd ((hb vm).mpr hfit) (by simpa using List.find?_eq_none.mp hf vm hmem)
    | some w => exact ⟨w, rfl, rfl⟩
  · intro hall
    unfold determine_azure_vm_for_task
    rw [key, List.find?_eq_none.mpr (fun vm hm => by
      simpa [hb vm] using hall vm hm)]

/-- Claim C2 (witness): a 1-core requirement is satisfiable and the selector
returns the first fitting entry; a 128-core requirement fits no entry and the
selector raises. -/
theorem determine_vm_first_fit_witness :
    (∃ vm, vms_by_preference.find? (vmFitsB ⟨1, true, 0, 0, ""⟩) = some vm ∧
      determine_azure_vm_for_task ⟨1, true, 0, 0, ""⟩ = Except.ok vm.sku)
    ∧ determine_azure_vm_for_task ⟨128, true, 0, 0, ""⟩
        = Except.error "No such VM available" :=
  ⟨(determine_vm_first_fit ⟨1, true, 0, 0, ""⟩).1
      ⟨⟨"Standard_A1_v2", 1, 2, 10, true⟩, by unfold vms_by_preference; exact List.mem_cons_self _ _,
        by norm_num [vmFits, effectiveCpu, effectiveMem, effectiveDisk, GbToGib]⟩,
    (determine_vm_first_fit ⟨128, true, 0, 0, ""⟩).2 (by
      intro vm hm
      fin_cases hm <;>
        norm_num [vmFits, effectiveCpu, effectiveMem, effectiveDisk, GbToGib])⟩

/-- Claim C3 (counterexample): an input carrying both `url` and `content`
passes validation (no `ValidationError`), whereas the claim says it must be
rejected. -/
theorem validate_input_accepts_url_and_content :
    TesInputSchema_validate_input true true = Except.ok ()
    ∧ ∀ e, TesInputSchema_validate_input true true ≠ Except.error e := by
  exact ⟨rfl, fun e h => by simp [TesInputSchema_validate_input] at h⟩

/-- Claim C3 (amended): validation accepts an input if and only if at least
one of `url` and `content` is present; only the neither-present case is
rejected (an input with both set is accepted — downstream, `url` is simply
ignored when `content` is populated). -/
theorem validate_input_accepts_iff_any_present (hasUrl hasContent : Bool) :
    TesInputSchema_validate_input hasUrl hasContent = Except.ok ()
      ↔ (hasUrl = true ∨ hasContent = true) := by
  cases hasUrl <;> cases hasContent <;>
    simp [TesInputSchema_validate_input]

/-- Claim C9: when an executor requests `stdout` redirection, the appended
copy commands target the executor's `stderr` destination (not its `stdout`
destination): a `mkdir -p` of that destination's parent when the parent is
non-empty, and a `cp` of the captured `stdout.txt` to the `stderr`
destination; the captured `stderr.txt` is likewise copied to the `stderr`
destination when `stderr` redirection is set. -/
theorem executor_copy_commands_use_stderr_destination (e : TesExecutorM)
    (h : e.stdout ≠ "") :
    ("cp -f " ++ "/tes-wd/$AZ_BATCH_TASK_ID/stdout.txt" ++ " " ++ shlexQuote e.stderr)
        ∈ executorCommands e
    ∧ (posixDirname e.stderr ≠ "" →
        ("mkdir -p " ++ shlexQuote (posixDirname e.stderr)) ∈ executorCommands e)
    ∧ (e.stderr ≠ "" →
        ("cp -f " ++ "/tes-wd/$AZ_BATCH_TASK_ID/stderr.txt" ++ " " ++ shlexQuote e.stderr)
          ∈ executorCommands e) := by
  refine ⟨?_, fun hd => ?_, fun hs => ?_⟩
  · simp only [executorCommands, if_neg h, generate_copy_commands]
    exact List.mem_append_left _ (List.mem_append_right _
      (List.mem_append_right _ (List.mem_singleton_self _)))
  · simp only [executorCommands, if_neg h, generate_copy_commands, if_neg hd]
    exact List.mem_append_left _ (List.mem_append_right _
      (List.mem_append_left _ (List.mem_singleton_self _)))
  · simp only [executorCommands, if_neg hs, generate_copy_commands]
    exact List.mem_append_right _ (List.mem_append_right _
      (List.mem_singleton_self _))

/-- Claim C9 (witness): concrete executor with both redirections set; both
captured streams are copied to the `stderr` destination and its parent
directory is created. -/
theorem executor_copy_commands_witness :
    ("cp -f " ++ "/tes-wd/$AZ_BATCH_TASK_ID/stdout.txt" ++ " "
        ++ shlexQuote ("/tes-wd/b/err.txt"))
      ∈ executorCommands ⟨"alpine", ["echo", "hi"], "", "", "/tes-wd/a/out.txt", "/tes-wd/b/err.txt", []⟩
    ∧ (posixDirname "/tes-wd/b/err.txt" ≠ "" →
        ("mkdir -p " ++ shlexQuote (posixDirname "/tes-wd/b/err.txt"))
          ∈ executorCommands ⟨"alpine", ["echo", "hi"], "", "", "/tes-wd/a/out.txt", "/tes-wd/b/err.txt", []⟩)
    ∧ ("/tes-wd/b/err.txt" ≠ "" →
        ("cp -f " ++ "/tes-wd/$AZ_BATCH_TASK_ID/stderr.txt" ++ " "
            ++ shlexQuote ("/tes-wd/b/err.txt"))
          ∈ executorCommands ⟨"alpine", ["echo", "hi"], "", "", "/tes-wd/a/out.txt", "/tes-wd/b/err.txt", []⟩) :=
  executor_copy_commands_use_stderr_destination
    ⟨"alpine", ["echo", "hi"], "", "", "/tes-wd/a/out.txt", "/tes-wd/b/err.txt", []⟩
    (by decide)

/-- Claim C10: the selector's effective requirements multiply `ram_gb` and
`disk_gb` by exactly `1000^3/1024^3`, and substitute the fallbacks 1 core /
2 GiB / 10 GiB exactly when the supplied value is zero (the converted value
is zero iff the supplied integer is zero, since the conversion factor is
non-zero) — a zero requirement acts as the small default. -/
theorem effective_requirements_spec (r : TesResources) :
    GbToGib = 1000 ^ 3 / 1024 ^ 3
    ∧ effectiveCpu r 1 = (if r.cpu_cores = 0 then 1 else (r.cpu_cores : ℚ))
    ∧ effectiveMem r 2 = (if r.ram_gb = 0 then 2 else (r.ram_gb : ℚ) * (1000 ^ 3 / 1024 ^ 3))
    ∧ effectiveDisk r 10 = (if r.disk_gb = 0 then 10 else (r.disk_gb : ℚ) * (1000 ^ 3 / 1024 ^ 3)) := by
  have hG : GbToGib ≠ 0 := by norm_num [GbToGib]
  refine ⟨rfl, ?_, ?_, ?_⟩
  · by_cases h : r.cpu_cores = 0 <;> simp [effectiveCpu, h]
  · by_cases h : r.ram_gb = 0
    · simp [effectiveMem, h]
    · have hne : (r.ram_gb : ℚ) ≠ 0 := Int.cast_ne_zero.mpr h
      simp [effectiveMem, h, mul_eq_zero, hne, hG, GbToGib]
  · by_cases h : r.disk_gb = 0
    · simp [effectiveDisk, h]
    · have hne : (r.disk_gb : ℚ) ≠ 0 := Int.cast_ne_zero.mpr h
      simp [effectiveDisk, h, mul_eq_zero, hne, hG, GbToGib]

/-! ## Task reaper (`tesazure/jobs.py`, `cleanup_tasks`) -/

/-- Configuration horizons (in hours) read by the reaper. -/
structure ReaperConfig where
  backendHours : Int
  dbHours : Int
  timeoutHours : Int
  deriving DecidableEq, Repr

/-- A `TesTask` database row as the reaper sees it (timestamps in hours). -/
structure DbTaskRec where
  backendId : String
  state : TaskStatus
  updatedTs : Int
  deriving DecidableEq, Repr

/-- The configuration-error message raised by `cleanup_tasks`. -/
def cleanupOrderingMsg : String :=
  "TASK_BACKEND_CLEANUP_HOURS must be less than or equal to TASK_DATABASE_CLEANUP_HOURS."

/-- Embeds `cleanup_tasks`: raise on misordered horizons before touching the
store; otherwise cancel stale backend tasks that still exist in the backend,
delete stale database rows, mark orphans `UNKNOWN` and cancel long-running
tasks. Returns the new store and the backend ids cancelled. -/
def cleanup_tasks (cfg : ReaperConfig) (now : Int) (backendHasTask : String → Bool)
    (store : List DbTaskRec) : Except String (List DbTaskRec × List String) :=
  if cfg.backendHours > cfg.dbHours then Except.error cleanupOrderingMsg
  else
    let backendCancels :=
      ((store.filter (fun t => decide (t.updatedTs ≤ now - cfg.backendHours))).filter
        (fun t => backendHasTask t.backendId)).map (fun t => t.backendId)
    let store2 := store.filter (fun t => decide (¬ t.updatedTs ≤ now - cfg.dbHours))
    let runningTasks := store2.filter (fun t => decide (t.state = TaskStatus.RUNNING))
    let store3 := store2.map (fun t =>
      if t.state = TaskStatus.RUNNING then
        if backendHasTask t.backendId = false then { t with state := TaskStatus.UNKNOWN }
        else if t.updatedTs < now - cfg.timeoutHours then { t with state := TaskStatus.CANCELED }
        else t
      else t)
    let timeoutCancels :=
      (runningTasks.filter (fun t =>
        backendHasTask t.backendId && decide (t.updatedTs < now - cfg.timeoutHours))).map
        (fun t => t.backendId)
    Except.ok (store3, backendCancels ++ timeoutCancels)

/-- Claim C6: when the backend-cleanup horizon exceeds the database-cleanup
horizon, a reaper pass raises the configuration error before performing any
store mutation — the pass produces no updated store and no backend
cancellations. -/
theorem cleanup_raises_on_misordered_horizons (cfg : ReaperConfig) (now : Int)
    (backendHasTask : String → Bool) (store : List DbTaskRec)
    (h : cfg.backendHours > cfg.dbHours) :
    cleanup_tasks cfg now backendHasTask store = Except.error cleanupOrderingMsg := by
  simp [cleanup_tasks, h]

/-- Claim C6 (witness): concrete misordered horizons on a non-empty store
raise the configuration error. -/
theorem cleanup_raises_on_misordered_horizons_witness :
    cleanup_tasks ⟨48, 24, 72⟩ 1000 (fun _ => true) [⟨"backend-1", TaskStatus.RUNNING, 0⟩]
      = Except.error cleanupOrderingMsg :=
  cleanup_raises_on_misordered_horizons ⟨48, 24, 72⟩ 1000 (fun _ => true)
    [⟨"backend-1", TaskStatus.RUNNING, 0⟩] (by decide)

/-! ## Batch `get_task` status derivation (`backends/batch/__init__.py`) -/

/-- Azure Batch job lifecycle states (`azure.batch.models.JobState`). -/
inductive JobState where
  | active | completed | deleting | disabled | disabling | enabling | terminating
  deriving DecidableEq, Repr

/-- Azure Batch task execution results (`TaskExecutionResult`). -/
inductive TaskExecResult where
  | success | failure
  deriving DecidableEq, Repr

/-- Azure Batch failure categories (`ErrorCategory`). -/
inductive ErrorCategory where
  | userError | serverError
  deriving DecidableEq, Repr

/-- `JobPreparationTaskState` (running / completed). -/
inductive PrepTaskState where
  | running | completed
  deriving DecidableEq, Repr

/-- `JobReleaseTaskState` (running / completed). -/
inductive RelTaskState where
  | running | completed
  deriving DecidableEq, Repr

/-- Execution info of a job-preparation task instance. -/
structure PrepExecInfo where
  result : Option TaskExecResult
  state : PrepTaskState
  deriving DecidableEq, Repr

/-- Execution info of a job-release task instance. -/
structure RelExecInfo where
  result : Option TaskExecResult
  state : RelTaskState
  deriving DecidableEq, Repr

/-- One row of `job.list_preparation_and_release_task_status`. -/
structure PrepReleaseStatus where
  prepInfo : Option PrepExecInfo
  releaseInfo : Option RelExecInfo
  deriving DecidableEq, Repr

/-- `job.get_task_counts` summary. -/
structure TaskCounts where
  active : Nat
  running : Nat
  failed : Nat
  succeeded : Nat
  deriving DecidableEq, Repr

/-- One Azure Batch task (executor) as `get_task` reads it. -/
structure BatchTaskInfo where
  id : String
  execResult : Option TaskExecResult
  failureCategory : Option ErrorCategory
  exitCode : Option Int
  deriving DecidableEq, Repr

/-- The Azure Batch job as fetched by `get_task`. -/
structure BatchJobView where
  state : JobState
  hasPrepTask : Bool
  hasReleaseTask : Bool
  prepReleaseStatuses : List PrepReleaseStatus
  counts : TaskCounts
  tasks : List BatchTaskInfo
  deriving Repr

/-- Abstracts `file.get_from_task` (task id, file name → contents; `none`
embeds the swallowed batch error). -/
structure GetTaskEnv where
  fileGet : String → String → Option String

/-- Executor log entry assembled by `get_task`. -/
structure ExecutorLogM where
  exitCode : Option Int
  stdout : String
  stderr : String
  deriving DecidableEq, Repr

/-- The `state_map` dict of `get_task` (`UNKNOWN` for states missing from the
map, via `state_map.get(..., UNKNOWN)` semantics of `.get` with default). -/
def jobStateMap : JobState → TaskStatus
  | JobState.active => TaskStatus.QUEUED
  | JobState.completed => TaskStatus.COMPLETE
  | JobState.deleting => TaskStatus.CANCELED
  | JobState.disabled => TaskStatus.PAUSED
  | JobState.disabling => TaskStatus.PAUSED
  | JobState.enabling => TaskStatus.PAUSED
  | JobState.terminating => TaskStatus.RUNNING

/-- Embeds the preparation/release status loop of `get_task` (lines 311-326).
The access `task_info.job_preparation_task_execution_info.state` on line 317
is unguarded in the source, so a row without preparation info raises. -/
def prepReleaseFold (st0 : TaskStatus) (infos : List PrepReleaseStatus) :
    Except String TaskStatus :=
  infos.foldlM (fun st info =>
    let st1 := match info.prepInfo with
      | some pi => if pi.result = some TaskExecResult.failure then TaskStatus.SYSTEM_ERROR else st
      | none => st
    match info.prepInfo with
    | none => Except.error "AttributeError: NoneType has no attribute state"
    | some pi =>
        let st2 := if pi.state = PrepTaskState.running then TaskStatus.INITIALIZING else st1
        let st3 := match info.releaseInfo with
          | some ri =>
              let s := if ri.result = some TaskExecResult.failure then TaskStatus.SYSTEM_ERROR else st2
              if ri.state = RelTaskState.running then TaskStatus.RUNNING else s
          | none => st2
        Except.ok st3) st0

/-- Embeds the state and executor-log derivation of `get_task` (lines
288-370).  The per-executor loop faithfully reproduces line 341 of the
source: on a failed batch task whose failure category is `server_error` the
code assigns `SYSTEM_ERROR` to `batch_job.state` (the fetched Azure job
object), not to `tes_task.state`; the running value of `batch_job.state` is
threaded as a sum (original `JobState` or the overwritten `TaskStatus`) and
only influences the later `batch_job.state == JobState.completed` comparison
that gates stdout/stderr retrieval. -/
def get_task_state (env : GetTaskEnv) (job : BatchJobView) :
    Except String (TaskStatus × List ExecutorLogM) := do
  let st0 := jobStateMap job.state
  let st1 ←
    if job.hasPrepTask || job.hasReleaseTask then prepReleaseFold st0 job.prepReleaseStatuses
    else Except.ok st0
  let st2 :=
    if st1 = TaskStatus.UNKNOWN then
      if job.counts.failed ≠ 0 then TaskStatus.EXECUTOR_ERROR
      else if job.counts.running = 0 ∧ job.counts.active > 0 then TaskStatus.QUEUED
      else st1
    else st1
  let final := job.tasks.foldl
    (fun (acc : (JobState ⊕ TaskStatus) × List ExecutorLogM) bt =>
      let bstate :=
        if bt.execResult = some TaskExecResult.failure
            ∧ bt.failureCategory = some ErrorCategory.serverError then
          Sum.inr TaskStatus.SYSTEM_ERROR
        else acc.1
      let lg : ExecutorLogM :=
        if bstate = Sum.inl JobState.completed then
          { exitCode := bt.exitCode,
            stdout := "" ++ ((env.fileGet bt.id "stdout.txt").getD ""),
            stderr := "" ++ ((env.fileGet bt.id "stderr.txt").getD "") }
        else { exitCode := bt.exitCode, stdout := "", stderr := "" }
      (bstate, acc.2 ++ [lg]))
    (Sum.inl job.state, [])
  return (st2, final.2)

/-- Claim C1: a completed job containing an executor (batch) task that failed
with category `server_error` still reports state `COMPLETE` — the override on
line 341 writes `SYSTEM_ERROR` into `batch_job.state` instead of
`tes_task.state`, so the returned task-status view never becomes
`SYSTEM_ERROR`, contradicting the claim (and the source's own comment stating
the override intent). -/
theorem get_task_server_error_override_ineffective :
    get_task_state ⟨fun _ _ => none⟩
        { state := JobState.completed, hasPrepTask := false, hasReleaseTask := false,
          prepReleaseStatuses := [], counts := ⟨0, 0, 1, 0⟩,
          tasks := [⟨"task-1", some TaskExecResult.failure, some ErrorCategory.serverError, some 1⟩] }
      = Except.ok (TaskStatus.COMPLETE, [⟨some 1, "", ""⟩])
    ∧ TaskStatus.COMPLETE ≠ TaskStatus.SYSTEM_ERROR := by
  constructor
  · rfl
  · decide

/-! ## Submitter detection (`backends/common/__init__.py`,
`detect_tags_for_submitter`) -/

/-- Curly-brace character test (used to embed Python's
`str.strip` with a brace charset in `uuid.UUID`). -/
def isBraceChar (c : Char) : Bool := c = '\x7b' || c = '\x7d'

/-- Embeds the acceptance condition of Python `uuid.UUID(s)`: drop `urn:` and
`uuid:` markers, strip surrounding braces, drop dashes, and require exactly 32
hex digits. -/
def pyUuidParseOk (s : String) : Bool :=
  let h := pyReplace (pyReplace s "urn:" "") "uuid:" ""
  let cs := h.data
  let cs := cs.dropWhile isBraceChar
  let cs := (cs.reverse.dropWhile isBraceChar).reverse
  let h2 := pyReplace (String.mk cs) "-" ""
  h2.data.length = 32 && h2.data.all isHexDigit

/-- Shape of the `uuid_regex` used in the rc-path pattern: five dash-separated
hex runs of lengths 8-4-4-4-12. -/
def uuidShape (s : String) : Bool :=
  let segs := strSplitOn s "-"
  decide (segs.map (fun seg => seg.data.length) = [8, 4, 4, 4, 12])
    && segs.all (fun seg => seg.data.all isHexDigit)

/-- The three capture groups of the rc-path regex: workflow name, workflow id,
call name. -/
structure RcGroups where
  workflowName : String
  workflowId : String
  callName : String
  deriving DecidableEq, Repr

/-- Suffix match for `(?:/.*)?/execution/rc` as a prefix of the remaining
input (`re.match` only anchors at the start): either `/execution/rc`
immediately, or a slash, a newline-free run, then `/execution/rc`. -/
def tailMatches (r : List Char) : Bool :=
  "/execution/rc".toList.isPrefixOf r
    || (match r with
        | '/' :: r1 =>
            (List.range (r1.length + 1)).any (fun k =>
              ((r1.take k).all (fun c => c ≠ '\n'))
                && "/execution/rc".toList.isPrefixOf (r1.drop k))
        | _ => false)

/-- Matches `/([^/]+)/(uuid)/call-([^/]+)(?:/.*)?/execution/rc` against the
remaining input: the `[^/]+` groups are the maximal slash-free runs (the
following literal slash forces maximality), the uuid group has fixed length
36. -/
def matchAfterA : List Char → Option RcGroups
  | '/' :: r1 =>
      let nm := r1.takeWhile (fun c => c ≠ '/')
      let r2 := r1.dropWhile (fun c => c ≠ '/')
      if nm = [] then none
      else
        match r2 with
        | '/' :: r3 =>
            let w := r3.take 36
            let r4 := r3.drop 36
            if uuidShape (String.mk w) then
              if "/call-".toList.isPrefixOf r4 then
                let r5 := r4.drop 6
                let cl := r5.takeWhile (fun c => c ≠ '/')
                let r6 := r5.dropWhile (fun c => c ≠ '/')
                if cl = [] then none
                else if tailMatches r6 then some ⟨String.mk nm, String.mk w, String.mk cl⟩
                else none
              else none
            else none
        | _ => none
  | _ => none

/-- Embeds `re.match` of the Cromwell rc-path pattern
`/tes-wd(?:/.*)?/([^/]+)/(uuid)/call-([^/]+)(?:/.*)?/execution/rc`:
after the literal `/tes-wd`, the optional greedy `(?:/.*)?` is tried from the
longest newline-free consumption down to the empty alternative, mirroring the
regex engine's backtracking order. -/
def rcRegexMatch (path : String) : Option RcGroups :=
  let cs := path.toList
  if "/tes-wd".toList.isPrefixOf cs then
    let r := cs.drop 7
    match r with
    | '/' :: r1 =>
        (((List.range (r1.length + 1)).reverse).findSome? (fun k =>
            if (r1.take k).all (fun c => c ≠ '\n') then matchAfterA (r1.drop k) else none))
          <|> matchAfterA r
    | _ => matchAfterA r
  else none

/-- Embeds `detect_tags_for_submitter`.  Faithful quirks of the source loop:
`has_rc_output` is set for *every* output (the assignment is not under the
`endswith('execution/rc')` guard); `match` holds the regex result for the
*last* rc-suffixed output; the executiondir tag is derived from the loop
variable after the loop, i.e. the last output overall. -/
def detect_tags_for_submitter (task : TesTaskM) : List (String × String) :=
  let descSeg := String.mk (task.description.data.takeWhile (fun c => c ≠ ':'))
  let lastRc := (task.outputs.filter (fun o => strEndsWith o.path "execution/rc")).getLast?
  let mtch : Option RcGroups :=
    match lastRc with
    | some o => rcRegexMatch o.path
    | none => none
  match mtch, task.outputs.getLast? with
  | some g, some lastOut =>
      if task.outputs.all (fun o => decide (o.path = o.url))
          && !task.outputs.isEmpty
          && task.outputs.any (fun o => strEndsWith o.path "execution/stdout")
          && task.outputs.any (fun o => strEndsWith o.path "execution/stderr")
          && pyUuidParseOk descSeg
          && decide (g.workflowId = descSeg) then
        [("ms-submitter-name", "cromwell"),
         ("ms-submitter-workflow-id", g.workflowId),
         ("ms-submitter-workflow-name", g.workflowName),
         ("ms-submitter-workflow-stage", g.callName),
         ("ms-submitter-cromwell-executiondir", posixParent lastOut.path)]
      else []
  | _, _ => []

lemma mem_of_last_opt {α : Type _} {l : List α} {a : α} (h : l.getLast? = some a) :
    a ∈ l := by
  obtain ⟨hne, heq⟩ := List.mem_getLast?_eq_getLast (Option.mem_def.mpr h)
  exact heq ▸ List.getLast_mem hne

/-- Claim C7: a non-empty tag set is returned only when all the detection
conditions hold: the description starts with a UUID-parseable segment, every
output's path equals its url, outputs with paths ending in
`execution/stdout` and `execution/stderr` exist, an output ending in
`execution/rc` exists whose path matches the structural regex under the
`/tes-wd` prefix, and the workflow id captured from that path equals the
description-derived segment; contrapositively, if any one condition fails the
tag set is empty. -/
theorem detect_tags_nonempty_necessary (task : TesTaskM)
    (h : detect_tags_for_submitter task ≠ []) :
    pyUuidParseOk (String.mk (task.description.data.takeWhile (fun c => c ≠ ':'))) = true
    ∧ (∀ o ∈ task.outputs, o.path = o.url)
    ∧ (∃ o ∈ task.outputs, strEndsWith o.path "execution/stdout" = true)
    ∧ (∃ o ∈ task.outputs, strEndsWith o.path "execution/stderr" = true)
    ∧ (∃ o ∈ task.outputs, strEndsWith o.path "execution/rc" = true
        ∧ ∃ g : RcGroups, rcRegexMatch o.path = some g
            ∧ g.workflowId
                = String.mk (task.description.data.takeWhile (fun c => c ≠ ':'))) := by
  unfold detect_tags_for_submitter at h
  rcases hm : (task.outputs.filter (fun o => strEndsWith o.path "execution/rc")).getLast? with
    _ | o
  · rw [hm] at h
    simp at h
  · rw [hm] at h
    dsimp only at h
    rcases hr : rcRegexMatch o.path with _ | g
    · rw [hr] at h
      simp at h
    · rw [hr] at h
      rcases hlast : task.outputs.getLast? with _ | lastOut
      · rw [hlast] at h
        simp at h
      · rw [hlast] at h
        dsimp only at h
        by_cases hg :
            (task.outputs.all (fun o => decide (o.path = o.url))
              && !task.outputs.isEmpty
              && task.outputs.any (fun o => strEndsWith o.path "execution/stdout")
              && task.outputs.any (fun o => strEndsWith o.path "execution/stderr")
              && pyUuidParseOk
                  (String.mk (task.description.data.takeWhile (fun c => c ≠ ':')))
              && decide (g.workflowId
                  = String.mk (task.description.data.takeWhile (fun c => c ≠ ':')))) = true
        · simp only [Bool.and_eq_true, decide_eq_true_eq] at hg
          obtain ⟨⟨⟨⟨⟨hall, _⟩, hstdout⟩, hstderr⟩, hparse⟩, hwf⟩ := hg
          have homem := List.mem_filter.mp (mem_of_last_opt hm)
          exact ⟨hparse,
            fun o ho => by simpa using (List.all_eq_true.mp hall) o ho,
            by simpa using List.any_eq_true.mp hstdout,
            by simpa using List.any_eq_true.mp hstderr,
            o, homem.1, homem.2, g, hr, hwf⟩
        · rw [if_neg hg] at h
          simp at h

set_option maxRecDepth 100000 in
/-- Claim C7 (witness): a well-formed Cromwell task satisfies the hypothesis
(non-empty tag set) and all the necessary conditions. -/
theorem detect_tags_nonempty_necessary_witness :
    pyUuidParseOk (String.mk
      (("aaaaaaaa-aaaa-aaaa-aaaa-aaaaaaaaaaaa:x" : String).data.takeWhile (fun c => c ≠ ':')))
      = true
    ∧ (∀ o ∈ ([⟨"rc", "/tes-wd/s/w/aaaaaaaa-aaaa-aaaa-aaaa-aaaaaaaaaaaa/call-c/execution/rc",
            "/tes-wd/s/w/aaaaaaaa-aaaa-aaaa-aaaa-aaaaaaaaaaaa/call-c/execution/rc"⟩,
          ⟨"so", "/tes-wd/s/w/aaaaaaaa-aaaa-aaaa-aaaa-aaaaaaaaaaaa/call-c/execution/stdout",
            "/tes-wd/s/w/aaaaaaaa-aaaa-aaaa-aaaa-aaaaaaaaaaaa/call-c/execution/stdout"⟩,
          ⟨"se", "/tes-wd/s/w/aaaaaaaa-aaaa-aaaa-aaaa-aaaaaaaaaaaa/call-c/execution/stderr",
            "/tes-wd/s/w/aaaaaaaa-aaaa-aaaa-aaaa-aaaaaaaaaaaa/call-c/execution/stderr"⟩]
        : List TesOutputM), o.path = o.url)
    ∧ (∃ o ∈ ([⟨"rc", "/tes-wd/s/w/aaaaaaaa-aaaa-aaaa-aaaa-aaaaaaaaaaaa/call-c/execution/rc",
            "/tes-wd/s/w/aaaaaaaa-aaaa-aaaa-aaaa-aaaaaaaaaaaa/call-c/execution/rc"⟩,
          ⟨"so", "/tes-wd/s/w/aaaaaaaa-aaaa-aaaa-aaaa-aaaaaaaaaaaa/call-c/execution/stdout",
            "/tes-wd/s/w/aaaaaaaa-aaaa-aaaa-aaaa-aaaaaaaaaaaa/call-c/execution/stdout"⟩,
          ⟨"se", "/tes-wd/s/w/aaaaaaaa-aaaa-aaaa-aaaa-aaaaaaaaaaaa/call-c/execution/stderr",
            "/tes-wd/s/w/aaaaaaaa-aaaa-aaaa-aaaa-aaaaaaaaaaaa/call-c/execution/stderr"⟩]
        : List TesOutputM), strEndsWith o.path "execution/stdout" = true)
    ∧ (∃ o ∈ ([⟨"rc", "/tes-wd/s/w/aaaaaaaa-aaaa-aaaa-aaaa-aaaaaaaaaaaa/call-c/execution/rc",
            "/tes-wd/s/w/aaaaaaaa-aaaa-aaaa-aaaa-aaaaaaaaaaaa/call-c/execution/rc"⟩,
          ⟨"so", "/tes-wd/s/w/aaaaaaaa-aaaa-aaaa-aaaa-aaaaaaaaaaaa/call-c/execution/stdout",
            "/tes-wd/s/w/aaaaaaaa-aaaa-aaaa-aaaa-aaaaaaaaaaaa/call-c/execution/stdout"⟩,
          ⟨"se", "/tes-wd/s/w/aaaaaaaa-aaaa-aaaa-aaaa-aaaaaaaaaaaa/call-c/execution/stderr",
            "/tes-wd/s/w/aaaaaaaa-aaaa-aaaa-aaaa-aaaaaaaaaaaa/call-c/execution/stderr"⟩]
        : List TesOutputM), strEndsWith o.path "execution/stderr" = true)
    ∧ (∃ o ∈ ([⟨"rc", "/tes-wd/s/w/aaaaaaaa-aaaa-aaaa-aaaa-aaaaaaaaaaaa/call-c/execution/rc",
            "/tes-wd/s/w/aaaaaaaa-aaaa-aaaa-aaaa-aaaaaaaaaaaa/call-c/execution/rc"⟩,
          ⟨"so", "/tes-wd/s/w/aaaaaaaa-aaaa-aaaa-aaaa-aaaaaaaaaaaa/call-c/execution/stdout",
            "/tes-wd/s/w/aaaaaaaa-aaaa-aaaa-aaaa-aaaaaaaaaaaa/call-c/execution/stdout"⟩,
          ⟨"se", "/tes-wd/s/w/aaaaaaaa-aaaa-aaaa-aaaa-aaaaaaaaaaaa/call-c/execution/stderr",
            "/tes-wd/s/w/aaaaaaaa-aaaa-aaaa-aaaa-aaaaaaaaaaaa/call-c/execution/stderr"⟩]
        : List TesOutputM), strEndsWith o.path "execution/rc" = true
        ∧ ∃ g : RcGroups, rcRegexMatch o.path = some g
            ∧ g.workflowId = String.mk
                (("aaaaaaaa-aaaa-aaaa-aaaa-aaaaaaaaaaaa:x" : String).data.takeWhile
                  (fun c => c ≠ ':'))) :=
  detect_tags_nonempty_necessary
    { description := "aaaaaaaa-aaaa-aaaa-aaaa-aaaaaaaaaaaa:x",
      inputs := [],
      outputs := [
        ⟨"rc", "/tes-wd/s/w/aaaaaaaa-aaaa-aaaa-aaaa-aaaaaaaaaaaa/call-c/execution/rc",
          "/tes-wd/s/w/aaaaaaaa-aaaa-aaaa-aaaa-aaaaaaaaaaaa/call-c/execution/rc"⟩,
        ⟨"so", "/tes-wd/s/w/aaaaaaaa-aaaa-aaaa-aaaa-aaaaaaaaaaaa/call-c/execution/stdout",
          "/tes-wd/s/w/aaaaaaaa-aaaa-aaaa-aaaa-aaaaaaaaaaaa/call-c/execution/stdout"⟩,
        ⟨"se", "/tes-wd/s/w/aaaaaaaa-aaaa-aaaa-aaaa-aaaaaaaaaaaa/call-c/execution/stderr",
          "/tes-wd/s/w/aaaaaaaa-aaaa-aaaa-aaaa-aaaaaaaaaaaa/call-c/execution/stderr"⟩],
      tags := [], resources := ⟨0, true, 0, 0, ""⟩, executors := [] }
    (by decide)

/-! ## Submitter-specific mangling (`backends/common/__init__.py`,
`mangle_task_for_submitter`) -/

/-- Dictionary lookup on the task's tags (`dict.get` semantics). -/
def tagLookup (tags : List (String × String)) (k : String) : Option String :=
  (tags.find? (fun p => decide (p.1 = k))).map (fun p => p.2)

/-- Abstracts the Azure storage side effects used by the mangler: SAS-signed
blob URL construction (read and write tokens) and blob listing, keyed by the
container name (which may be absent when neither config nor workflow-id tag
provides one, embedding Python `None`). -/
structure MangleEnv where
  cromwellContainerCfg : Option String
  makeBlobUrlRead : Option String → String → String
  makeBlobUrlWrite : Option String → String → String
  listBlobNames : Option String → String → List String

/-- The rewrite condition of the input loop (line 166): no inline content
(Python falsy: `None` or empty), `url == path`, and the url under the
`/tes-wd/shared` execution-environment prefix. -/
def mangleInputCond (i : TesInputM) : Bool :=
  (i.content = none ∨ i.content = some "")
    && decide (i.url = i.path) && strStartsWith i.url "/tes-wd/shared"

/-- The rewrite condition of the output loop (line 196): `url == path` and
the path under the `/tes-wd/shared` prefix. -/
def mangleOutputCond (o : TesOutputM) : Bool :=
  decide (o.url = o.path) && strStartsWith o.path "/tes-wd/shared"

/-- Blob filename for a managed path: drop the first two `PurePosixPath`
parts (`/` and `tes-wd`) and rejoin. -/
def mangleBlobFilename (p : String) : String :=
  posixOfParts ((posixParts p).drop 2)

/-- Container-name resolution (lines 144-148): the
`CROMWELL_STORAGE_CONTAINER_NAME` config value when truthy, else the
workflow-id tag. -/
def mangleContainer (env : MangleEnv) (task : TesTaskM) : Option String :=
  match env.cromwellContainerCfg with
  | some c => if c = "" then tagLookup task.tags "ms-submitter-workflow-id" else some c
  | none => tagLookup task.tags "ms-submitter-workflow-id"

/-- Embeds `mangle_task_for_submitter`: only applies to tasks tagged
`ms-submitter-name = cromwell`; maps managed inputs/outputs to SAS blob URLs,
then appends injected inputs for blobs found under the execution directory
that are not already inputs. -/
def mangle_task_for_submitter (env : MangleEnv) (task : TesTaskM) : TesTaskM :=
  if tagLookup task.tags "ms-submitter-name" = some "cromwell" then
    let container : Option String := mangleContainer env task
    let replacementInputs := task.inputs.map (fun i =>
      if mangleInputCond i then
        { i with url := env.makeBlobUrlRead container (mangleBlobFilename i.path) }
      else i)
    let cromwellInputFilenames :=
      (task.inputs.filter mangleInputCond).map (fun i => posixName i.path)
    let execDir := tagLookup task.tags "ms-submitter-cromwell-executiondir"
    let injected : List TesInputM :=
      match execDir with
      | none => []
      | some d =>
          if d = "" then []
          else
            let blobExecDir := mangleBlobFilename d
            let blobsToInject := (env.listBlobNames container blobExecDir).filter
              (fun bp => !cromwellInputFilenames.contains (posixName bp)
                && decide (bp ≠ blobExecDir))
            blobsToInject.map (fun bp =>
              { name := "injected-" ++ posixName bp,
                path := posixJoin d (posixName bp),
                url := env.makeBlobUrlRead container bp,
                content := none })
    let replacementOutputs := task.outputs.map (fun o =>
      if mangleOutputCond o then
        { o with url := env.makeBlobUrlWrite container (mangleBlobFilename o.path) }
      else o)
    { task with inputs := replacementInputs ++ injected, outputs := replacementOutputs }
  else task

/-- Claim C8: for a task tagged with the cromwell submitter, each original
input keeps its list position and is rewritten only in its `url` field (and
only when content-free, `path == url`, and under `/tes-wd/shared`); inputs
and outputs not meeting the conditions are byte-for-byte unchanged, and
outputs meeting them change only their `url`. -/
theorem mangle_rewrites_only_shared_unremapped_entries (env : MangleEnv) (task : TesTaskM)
    (h : tagLookup task.tags "ms-submitter-name" = some "cromwell") :
    (∀ idx i, task.inputs.get? idx = some i → mangleInputCond i = false →
      (mangle_task_for_submitter env task).inputs.get? idx = some i)
    ∧ (∀ idx i, task.inputs.get? idx = some i → mangleInputCond i = true →
      ∃ u, (mangle_task_for_submitter env task).inputs.get? idx
        = some { i with url := u })
    ∧ (∀ idx o, task.outputs.get? idx = some o → mangleOutputCond o = false →
      (mangle_task_for_submitter env task).outputs.get? idx = some o)
    ∧ (∀ idx o, task.outputs.get? idx = some o → mangleOutputCond o = true →
      ∃ u, (mangle_task_for_submitter env task).outputs.get? idx
        = some { o with url := u }) := by
  have hin : ∀ idx (i : TesInputM), task.inputs.get? idx = some i →
      (mangle_task_for_submitter env task).inputs.get? idx
        = some (if mangleInputCond i then
            { i with url := (env.makeBlobUrlRead (mangleContainer env task) (mangleBlobFilename i.path)) }
          else i) := by
    intro idx i hget
    have hlt : idx < task.inputs.length := by
      by_contra hge
      rw [List.get?_eq_none.mpr (Nat.le_of_not_lt hge)] at hget
      exact Option.noConfusion hget
    unfold mangle_task_for_submitter
    rw [if_pos h]
    dsimp only
    rw [List.get?_append (by simpa using hlt), List.get?_map, hget]
    rfl
  have hout : ∀ idx (o : TesOutputM), task.outputs.get? idx = some o →
      (mangle_task_for_submitter env task).outputs.get? idx
        = some (if mangleOutputCond o then
            { o with url := (env.makeBlobUrlWrite (mangleContainer env task) (mangleBlobFilename o.path)) }
          else o) := by
    intro idx o hget
    unfold mangle_task_for_submitter
    rw [if_pos h]
    dsimp only
    rw [List.get?_map, hget]
    rfl
  refine ⟨fun idx i hget hcond => ?_, fun idx i hget hcond => ?_,
    fun idx o hget hcond => ?_, fun idx o hget hcond => ?_⟩
  · rw [hin idx i hget, if_neg (by simp [hcond])]
  · exact ⟨_, by rw [hin idx i hget, if_pos hcond]⟩
  · rw [hout idx o hget, if_neg (by simp [hcond])]
  · exact ⟨_, by rw [hout idx o hget, if_pos hcond]⟩

/-- Claim C8 (witness): on a concrete cromwell-tagged task, an already
remapped input (`path ≠ url`) and output are untouched in every field, while
shared-prefix `path == url` entries are rewritten only in `url`. -/
theorem mangle_rewrites_only_shared_unremapped_entries_witness :
    (mangle_task_for_submitter
        ⟨none, fun _ b => "https://acct.blob.core.windows.net/c/" ++ b,
          fun _ b => "https://acct.blob.core.windows.net/cw/" ++ b, fun _ _ => []⟩
        { description := "", inputs := [⟨"in0", "/data/x", "https://example.com/x", none⟩,
            ⟨"in1", "/tes-wd/shared/a.txt", "/tes-wd/shared/a.txt", none⟩],
          outputs := [⟨"out0", "/tes-wd/shared/b.txt", "https://example.com/b"⟩,
            ⟨"out1", "/tes-wd/shared/b.txt", "/tes-wd/shared/b.txt"⟩],
          tags := [("ms-submitter-name", "cromwell"), ("ms-submitter-workflow-id", "wf1")],
          resources := ⟨0, true, 0, 0, ""⟩, executors := [] }).inputs.get? 0
      = some ⟨"in0", "/data/x", "https://example.com/x", none⟩
    ∧ (∃ u, (mangle_task_for_submitter
        ⟨none, fun _ b => "https://acct.blob.core.windows.net/c/" ++ b,
          fun _ b => "https://acct.blob.core.windows.net/cw/" ++ b, fun _ _ => []⟩
        { description := "", inputs := [⟨"in0", "/data/x", "https://example.com/x", none⟩,
            ⟨"in1", "/tes-wd/shared/a.txt", "/tes-wd/shared/a.txt", none⟩],
          outputs := [⟨"out0", "/tes-wd/shared/b.txt", "https://example.com/b"⟩,
            ⟨"out1", "/tes-wd/shared/b.txt", "/tes-wd/shared/b.txt"⟩],
          tags := [("ms-submitter-name", "cromwell"), ("ms-submitter-workflow-id", "wf1")],
          resources := ⟨0, true, 0, 0, ""⟩, executors := [] }).inputs.get? 1
      = some ⟨"in1", "/tes-wd/shared/a.txt", u, none⟩)
    ∧ (mangle_task_for_submitter
        ⟨none, fun _ b => "https://acct.blob.core.windows.net/c/" ++ b,
          fun _ b => "https://acct.blob.core.windows.net/cw/" ++ b, fun _ _ => []⟩
        { description := "", inputs := [⟨"in0", "/data/x", "https://example.com/x", none⟩,
            ⟨"in1", "/tes-wd/shared/a.txt", "/tes-wd/shared/a.txt", none⟩],
          outputs := [⟨"out0", "/tes-wd/shared/b.txt", "https://example.com/b"⟩,
            ⟨"out1", "/tes-wd/shared/b.txt", "/tes-wd/shared/b.txt"⟩],
          tags := [("ms-submitter-name", "cromwell"), ("ms-submitter-workflow-id", "wf1")],
          resources := ⟨0, true, 0, 0, ""⟩, executors := [] }).outputs.get? 0
      = some ⟨"out0", "/tes-wd/shared/b.txt", "https://example.com/b"⟩
    ∧ (∃ u, (mangle_task_for_submitter
        ⟨none, fun _ b => "https://acct.blob.core.windows.net/c/" ++ b,
          fun _ b => "https://acct.blob.core.windows.net/cw/" ++ b, fun _ _ => []⟩
        { description := "", inputs := [⟨"in0", "/data/x", "https://example.com/x", none⟩,
            ⟨"in1", "/tes-wd/shared/a.txt", "/tes-wd/shared/a.txt", none⟩],
          outputs := [⟨"out0", "/tes-wd/shared/b.txt", "https://example.com/b"⟩,
            ⟨"out1", "/tes-wd/shared/b.txt", "/tes-wd/shared/b.txt"⟩],
          tags := [("ms-submitter-name", "cromwell"), ("ms-submitter-workflow-id", "wf1")],
          resources := ⟨0, true, 0, 0, ""⟩, executors := [] }).outputs.get? 1
      = some ⟨"out1", "/tes-wd/shared/b.txt", u⟩) :=
  ⟨(mangle_rewrites_only_shared_unremapped_entries _ _ (by decide)).1 0
      ⟨"in0", "/data/x", "https://example.com/x", none⟩ rfl (by decide),
    (mangle_rewrites_only_shared_unremapped_entries _ _ (by decide)).2.1 1
      ⟨"in1", "/tes-wd/shared/a.txt", "/tes-wd/shared/a.txt", none⟩ rfl (by decide),
    (mangle_rewrites_only_shared_unremapped_entries _ _ (by decide)).2.2.1 0
      ⟨"out0", "/tes-wd/shared/b.txt", "https://example.com/b"⟩ rfl (by decide),
    (mangle_rewrites_only_shared_unremapped_entries _ _ (by decide)).2.2.2 1
      ⟨"out1", "/tes-wd/shared/b.txt", "/tes-wd/shared/b.txt"⟩ rfl (by decide)⟩

/-! ## Batch job creation (`backends/batch/__init__.py`,
`AzureBatchEngine.createJob`) -/

/-- Abstracts the non-deterministic / external parts of `createJob`: the
backend's current job list, the fresh uuid blob names and SAS urls minted for
inline-content inputs (indexed by input position), the fresh uuid per-executor
task ids (indexed by executor position), and the two relevant config values. -/
structure CreateJobEnv where
  existingJobIds : List String
  blobName : Nat → String
  contentUrl : Nat → String
  taskId : Nat → String
  fileshare : Option String
  overridePoolId : Option String

/-- Pool choice: `BATCH_OVERRIDE_POOL_ID` when truthy, else an auto-pool with
the selected VM size. -/
inductive PoolChoice where
  | overridePool (id : String)
  | autoPool (vmSize : String)
  deriving DecidableEq, Repr

/-- The `JobPreparationTask` attached to the job. -/
structure PrepTaskAdd where
  containerImage : String
  containerRunOptions : String
  commandLine : String
  deriving DecidableEq, Repr

/-- The `JobReleaseTask` attached to the job. -/
structure ReleaseTaskAdd where
  containerImage : String
  containerRunOptions : String
  commandLine : String
  deriving DecidableEq, Repr

/-- A per-executor `TaskAddParameter`. -/
structure ExecTaskAdd where
  id : String
  envSettings : List (String × String)
  commandLine : String
  containerImage : String
  containerRunOptions : String
  deriving DecidableEq, Repr

/-- The `JobAddParameter` handed to `job.add`: the preparation task is always
assigned (line 218); the release task only under the upload-commands guard
(line 230). -/
structure BatchJobAdd where
  id : String
  pool : PoolChoice
  prep : PrepTaskAdd
  release : Option ReleaseTaskAdd
  deriving DecidableEq, Repr

/-- Everything `createJob` has submitted on the success path. -/
structure CreateJobSuccess where
  jobId : String
  blobsCreated : List (String × String)
  job : BatchJobAdd
  execTasks : List ExecTaskAdd
  deriving DecidableEq, Repr

/-- Outcome of `createJob`: early `return False` on id collision (before any
effect), a `ValueError` escape from VM selection (after the content blobs were
written), or success. -/
inductive CreateJobOutcome where
  | collision
  | noCapacity (blobsCreated : List (String × String))
  | success (res : CreateJobSuccess)
  deriving DecidableEq, Repr

/-- Inputs carrying inline content, with their positions (the loop on line
170 skips `content is None`; note the Python check differs from the mangler's
truthiness test: an empty-string content is still uploaded here). -/
def contentInputsEnum (task : TesTaskM) : List (Nat × TesInputM) :=
  task.inputs.enum.filter (fun p => decide (p.2.content ≠ none))

/-- Temporary blobs written to the scratch container for content inputs. -/
def contentBlobs (env : CreateJobEnv) (task : TesTaskM) : List (String × String) :=
  (contentInputsEnum task).map (fun p => (env.blobName p.1, p.2.content.getD ""))

/-- All download commands: url-input downloads plus the SAS downloads
appended for content inputs. -/
def downloadCommandsFull (env : CreateJobEnv) (task : TesTaskM) : List String :=
  generate_input_download_commands task
    ++ (contentInputsEnum task).map
        (fun p => generate_input_download_command (env.contentUrl p.1) p.2.path)

/-- `';'.join(download_commands) if download_commands else 'true'`. -/
def downloadShell (env : CreateJobEnv) (task : TesTaskM) : String :=
  if downloadCommandsFull env task = [] then "true"
  else strIntercalate ";" (downloadCommandsFull env task)

/-- `task_container_run_options` (line 211, plus the fileshare mount). -/
def taskContainerRunOptions (env : CreateJobEnv) : String :=
  "-v \"$AZ_BATCH_TASK_DIR/../:/tes-wd\""
    ++ (match env.fileshare with
        | some _ => " -v \"/mnt/batch/tasks/shared-azfiles:/tes-wd/shared-global\""
        | none => "")

/-- `fileprep_task_container_run_options` (line 215). -/
def fileprepContainerRunOptions (env : CreateJobEnv) : String :=
  "--entrypoint=/bin/sh " ++ taskContainerRunOptions env

/-- Embeds `AzureBatchEngine.createJob` (lines 150-273): abort on job-id
collision before any effect; write content blobs; select a VM (a
`NoCapacityAvailable` escape carries the blobs already written); build the
job with its unconditional preparation task and conditional release task;
build one batch task per executor. -/
def createJob (env : CreateJobEnv) (jobId : String) (task : TesTaskM) : CreateJobOutcome :=
  if jobId ∈ env.existingJobIds then CreateJobOutcome.collision
  else
    let blobs := contentBlobs env task
    match determine_azure_vm_for_task task.resources with
    | Except.error _ => CreateJobOutcome.noCapacity blobs
    | Except.ok vmSize =>
        let pool := match env.overridePoolId with
          | some pid =>
              if pid = "" then PoolChoice.autoPool vmSize else PoolChoice.overridePool pid
          | none => PoolChoice.autoPool vmSize
        let uploadCommands := generate_output_upload_commands task
        let job : BatchJobAdd :=
          { id := jobId,
            pool := pool,
            prep :=
              { containerImage := "tesazure.azurecr.io/tesazure/container-filetransfer",
                containerRunOptions := fileprepContainerRunOptions env,
                commandLine := (" -c \"set -e; set -o pipefail; mkdir -p /tes-wd/shared; " ++ downloadShell env task ++ "; wait\" ") },
            release :=
              (if uploadCommands = [] then none
               else some
                { containerImage := "tesazure.azurecr.io/tesazure/container-filetransfer",
                  containerRunOptions := fileprepContainerRunOptions env,
                  commandLine := (" -c \"set -e; set -o pipefail; " ++ strIntercalate ";" uploadCommands ++ "; wait\" ") }) }
        let execTasks := task.executors.enum.map (fun p =>
          { id := env.taskId p.1,
            envSettings := p.2.env,
            commandLine := ("/bin/sh -c \"set -e; " ++ strIntercalate ";" (executorCommands p.2) ++ "; wait\" "),
            containerImage := p.2.image,
            containerRunOptions := taskContainerRunOptions env })
        CreateJobOutcome.success
          { jobId := jobId, blobsCreated := blobs, job := job, execTasks := execTasks }

/-- Blobs written according to the outcome. -/
def outcomeBlobs : CreateJobOutcome → List (String × String)
  | CreateJobOutcome.collision => []
  | CreateJobOutcome.noCapacity b => b
  | CreateJobOutcome.success r => r.blobsCreated

/-- Jobs submitted according to the outcome. -/
def outcomeJobAdds : CreateJobOutcome → List BatchJobAdd
  | CreateJobOutcome.success r => [r.job]
  | _ => []

/-- Per-executor batch tasks submitted according to the outcome. -/
def outcomeExecTaskAdds : CreateJobOutcome → List ExecTaskAdd
  | CreateJobOutcome.success r => r.execTasks
  | _ => []

/-- Claim C5: when the freshly generated job id already appears in the
backend's job list, `createJob` signals failure immediately: no job is
submitted, no per-executor task is submitted, and no temporary blob is
written to the scratch container — and there is no retry with a new id. -/
theorem createJob_collision_aborts (env : CreateJobEnv) (jobId : String) (task : TesTaskM)
    (h : jobId ∈ env.existingJobIds) :
    createJob env jobId task = CreateJobOutcome.collision
    ∧ outcomeBlobs (createJob env jobId task) = []
    ∧ outcomeJobAdds (createJob env jobId task) = []
    ∧ outcomeExecTaskAdds (createJob env jobId task) = [] := by
  simp [createJob, h, outcomeBlobs, outcomeJobAdds, outcomeExecTaskAdds]

/-- Claim C5 (witness): a colliding job id on a task with a content input
aborts with no effects. -/
theorem createJob_collision_aborts_witness :
    createJob ⟨["job-1"], fun _ => "blob-0", fun _ => "https://sas/blob-0", fun _ => "task-0",
        none, none⟩ "job-1"
      ⟨"", [⟨"i0", "/data/in", "", some "hello"⟩], [⟨"o0", "/data/out", "https://out"⟩], [],
        ⟨0, true, 0, 0, ""⟩, []⟩
      = CreateJobOutcome.collision
    ∧ outcomeBlobs (createJob ⟨["job-1"], fun _ => "blob-0", fun _ => "https://sas/blob-0",
        fun _ => "task-0", none, none⟩ "job-1"
      ⟨"", [⟨"i0", "/data/in", "", some "hello"⟩], [⟨"o0", "/data/out", "https://out"⟩], [],
        ⟨0, true, 0, 0, ""⟩, []⟩) = []
    ∧ outcomeJobAdds (createJob ⟨["job-1"], fun _ => "blob-0", fun _ => "https://sas/blob-0",
        fun _ => "task-0", none, none⟩ "job-1"
      ⟨"", [⟨"i0", "/data/in", "", some "hello"⟩], [⟨"o0", "/data/out", "https://out"⟩], [],
        ⟨0, true, 0, 0, ""⟩, []⟩) = []
    ∧ outcomeExecTaskAdds (createJob ⟨["job-1"], fun _ => "blob-0", fun _ => "https://sas/blob-0",
        fun _ => "task-0", none, none⟩ "job-1"
      ⟨"", [⟨"i0", "/data/in", "", some "hello"⟩], [⟨"o0", "/data/out", "https://out"⟩], [],
        ⟨0, true, 0, 0, ""⟩, []⟩) = [] :=
  createJob_collision_aborts _ "job-1" _ (by decide)

/-- Claim C4: whenever `createJob` reaches job construction (no id collision
and a VM is available), it attaches a preparation task whose command line
embeds the download-command sequence — the no-op `true` exactly when there
are no download commands — and it attaches a release task if and only if the
task has at least one output (one upload command per output). -/
theorem createJob_prep_always_release_iff_outputs (env : CreateJobEnv) (jobId : String)
    (task : TesTaskM) (hid : jobId ∉ env.existingJobIds)
    (hvm : ∃ vm, determine_azure_vm_for_task task.resources = Except.ok vm) :
    ∃ res, createJob env jobId task = CreateJobOutcome.success res
      ∧ res.job.prep.commandLine
          = " -c \"set -e; set -o pipefail; mkdir -p /tes-wd/shared; "
            ++ downloadShell env task ++ "; wait\" "
      ∧ (downloadCommandsFull env task = [] → downloadShell env task = "true")
      ∧ (downloadCommandsFull env task ≠ [] →
          downloadShell env task = strIntercalate ";" (downloadCommandsFull env task))
      ∧ (res.job.release.isSome ↔ task.outputs ≠ []) := by
  obtain ⟨vm, hvm⟩ := hvm
  unfold createJob
  rw [if_neg hid, hvm]
  dsimp only
  refine ⟨_, rfl, rfl, fun hdl => ?_, fun hdl => ?_, ?_⟩
  · rw [downloadShell, if_pos hdl]
  · rw [downloadShell, if_neg hdl]
  · by_cases ho : task.outputs = []
    · simp [generate_output_upload_commands, ho]
    · have hne : generate_output_upload_commands task ≠ [] := by
        simp [generate_output_upload_commands, ho]
      simp [hne, ho]

/-- Claim C4 (witness): a task with a single inline-content input and no
outputs gets a preparation task whose command line carries the download
sequence, and no release task. -/
theorem createJob_prep_release_witness :
    ∃ res, createJob ⟨[], fun _ => "blob-0", fun _ => "https://sas/blob-0", fun _ => "task-0",
          none, none⟩ "job-1"
        ⟨"", [⟨"i0", "/data/in", "", some "hello"⟩], [], [], ⟨0, true, 0, 0, ""⟩,
          [⟨"alpine", ["echo", "hi"], "", "", "", "", []⟩]⟩
        = CreateJobOutcome.success res
      ∧ res.job.prep.commandLine
          = " -c \"set -e; set -o pipefail; mkdir -p /tes-wd/shared; "
            ++ downloadShell ⟨[], fun _ => "blob-0", fun _ => "https://sas/blob-0",
                fun _ => "task-0", none, none⟩
              ⟨"", [⟨"i0", "/data/in", "", some "hello"⟩], [], [], ⟨0, true, 0, 0, ""⟩,
                [⟨"alpine", ["echo", "hi"], "", "", "", "", []⟩]⟩ ++ "; wait\" "
      ∧ (downloadCommandsFull ⟨[], fun _ => "blob-0", fun _ => "https://sas/blob-0",
            fun _ => "task-0", none, none⟩
          ⟨"", [⟨"i0", "/data/in", "", some "hello"⟩], [], [], ⟨0, true, 0, 0, ""⟩,
            [⟨"alpine", ["echo", "hi"], "", "", "", "", []⟩]⟩ = [] →
          downloadShell ⟨[], fun _ => "blob-0", fun _ => "https://sas/blob-0",
              fun _ => "task-0", none, none⟩
            ⟨"", [⟨"i0", "/data/in", "", some "hello"⟩], [], [], ⟨0, true, 0, 0, ""⟩,
              [⟨"alpine", ["echo", "hi"], "", "", "", "", []⟩]⟩ = "true")
      ∧ (downloadCommandsFull ⟨[], fun _ => "blob-0", fun _ => "https://sas/blob-0",
            fun _ => "task-0", none, none⟩
          ⟨"", [⟨"i0", "/data/in", "", some "hello"⟩], [], [], ⟨0, true, 0, 0, ""⟩,
            [⟨"alpine", ["echo", "hi"], "", "", "", "", []⟩]⟩ ≠ [] →
          downloadShell ⟨[], fun _ => "blob-0", fun _ => "https://sas/blob-0",
              fun _ => "task-0", none, none⟩
            ⟨"", [⟨"i0", "/data/in", "", some "hello"⟩], [], [], ⟨0, true, 0, 0, ""⟩,
              [⟨"alpine", ["echo", "hi"], "", "", "", "", []⟩]⟩
            = strIntercalate ";" (downloadCommandsFull ⟨[], fun _ => "blob-0",
                fun _ => "https://sas/blob-0", fun _ => "task-0", none, none⟩
              ⟨"", [⟨"i0", "/data/in", "", some "hello"⟩], [], [], ⟨0, true, 0, 0, ""⟩,
                [⟨"alpine", ["echo", "hi"], "", "", "", "", []⟩]⟩))
      ∧ (res.job.release.isSome ↔
          ([] : List TesOutputM) ≠ []) :=
  createJob_prep_always_release_iff_outputs _ "job-1" _ (by simp)
    ⟨"Standard_A1_v2", by
      norm_num [determine_azure_vm_for_task, vms_by_preference, List.filter_cons,
        List.filter_nil, vmFitsB, effectiveCpu, effectiveMem, effectiveDisk, GbToGib,
        decide_eq_true_eq, Bool.and_eq_true]⟩

end TesAzure
